import Mathlib

/-!
Verification development for the market-pattern-hunter repository.

The two core components are embedded shallowly:

* the VCP pattern detector (`src/src/lib/stock-data.ts`, class `VCPDetector`),
* the entry-signal monitor (`src/unnamed/part_004`, class `EntryMonitor`).

Conventions of the embedding:

* TypeScript `number` values are modelled as rational numbers (`ℚ`).  All
  arithmetic in the source is exact rational arithmetic except `Math.sqrt`,
  which has no rational counterpart; the detector is therefore parameterized
  by the square-root function `sqrtFn : ℚ → ℚ` (used exactly where the source
  calls `Math.sqrt`), and every theorem below is proved for all such
  functions, hence in particular for the real square root.
* `Date` values are modelled by their epoch timestamp (`Int`), matching the
  source, which only ever calls `getTime()` on them.
* `Array.prototype.slice` is modelled by `jsSlice` below, including the
  JavaScript treatment of negative indices.  `Array.prototype.sort` with a
  numeric comparator is modelled by the stable `List.mergeSort` (JavaScript
  sorts are stable).
* Asynchronous collaborators (database, market data, e-mail) are modelled by
  explicit state passing: the monitor state carries the database rows and the
  log of dispatched notifications, and market data is an oracle `String →
  List HistoricalDataPoint` supplied through an environment record.
-/

/-- JavaScript index clamping used by `Array.prototype.slice`: a negative
index counts from the end of the array, and both ends are clamped to
`[0, length]`. -/
def jsIdx (n : Nat) (i : Int) : Nat :=
  if i < 0 then ((n : Int) + i).toNat else min i.toNat n

/-- `l.slice(a, b)` for a JavaScript array `l`. -/
def jsSlice {α : Type} (l : List α) (a b : Int) : List α :=
  let lo := jsIdx l.length a
  let hi := jsIdx l.length b
  (l.drop lo).take (hi - lo)

/-- `l.slice(a)` (one-argument slice, end defaults to the length). -/
def jsSlice1 {α : Type} (l : List α) (a : Int) : List α :=
  jsSlice l a l.length

/-- `Math.max(...l)` for the nonempty lists this code applies it to
(the sources never spread an empty list into `Math.max`). -/
def jsMax : List ℚ → ℚ
  | [] => 0
  | x :: xs => xs.foldl max x

/-- `Math.min(...l)` for the nonempty lists this code applies it to. -/
def jsMin : List ℚ → ℚ
  | [] => 0
  | x :: xs => xs.foldl min x

/-- `list.reduce((sum, d) => sum + f d, 0)`. -/
def sumBy {α : Type} (f : α → ℚ) (l : List α) : ℚ :=
  l.foldl (fun acc d => acc + f d) 0

/-- `x.toFixed(dp)`: fixed-point decimal rendering of a number.  Only the
determinism of this rendering matters for the theorems below. -/
def toFixedStr (dp : Nat) (q : ℚ) : String :=
  let scaled : Int := round (q * (10 : ℚ) ^ dp)
  let sign := if scaled < 0 then "-" else ""
  let n := scaled.natAbs
  let fpStr := toString (n % 10 ^ dp)
  let pad := String.join (List.replicate (dp - fpStr.length) "0")
  sign ++ toString (n / 10 ^ dp) ++ "." ++ pad ++ fpStr

/-- Template-literal rendering `${q}` of a number (all numbers interpolated
by the sources are integer-valued). -/
def qToStr (q : ℚ) : String :=
  if q.den = 1 then toString q.num else toString q.num ++ "/" ++ toString q.den

/-- `HistoricalDataPoint` from `src/src/lib/stock-data.ts` (field `open`
is renamed `openPrice`, `open` being a Lean keyword). -/
structure HistoricalDataPoint where
  date : Int
  openPrice : ℚ
  high : ℚ
  low : ℚ
  close : ℚ
  volume : ℚ
deriving DecidableEq

/-- Zero point used as the (unreachable, always length-guarded) default for
indexing operations that JavaScript would perform unchecked. -/
def hdpZero : HistoricalDataPoint := ⟨0, 0, 0, 0, 0, 0⟩

/-- `arr[arr.length - 1]` on a historical-data array. -/
def lastD (l : List HistoricalDataPoint) : HistoricalDataPoint :=
  l.getD (l.length - 1) hdpZero

/-- `arr[i]` on a historical-data array. -/
def getD (l : List HistoricalDataPoint) (i : Nat) : HistoricalDataPoint :=
  l.getD i hdpZero

namespace VCPDetector

/-- Entry-point kinds: `'breakout' | 'pivot' | 'support'`. -/
inductive EPType where
  | breakout
  | pivot
  | support
deriving DecidableEq

/-- `EntryPoint` from the source (`type`, `price`, `confidence`,
`description`). -/
structure EntryPoint where
  type : EPType
  price : ℚ
  confidence : ℚ
  description : String
deriving DecidableEq

/-- `VCPResult` from the source. -/
structure VCPResult where
  hasPattern : Bool
  score : ℚ
  baseCount : Nat
  volatilityContraction : ℚ
  priceTightness : ℚ
  volumeDryUp : Bool
  breakoutPotential : ℚ
  entryPoints : List EntryPoint
  description : String
deriving DecidableEq

/-- The base records produced by `findBases` (`start`, `end`, `depth`,
`duration`; `end` is a Lean keyword, hence `startIdx`/`endIdx`). -/
structure Base where
  startIdx : Nat
  endIdx : Nat
  depth : ℚ
  duration : Nat
deriving DecidableEq

/-- The `'decreasing' | 'increasing' | 'stable'` trend literals. -/
inductive Trend where
  | decreasing
  | increasing
  | stable
deriving DecidableEq

/-- Return record of `calculateVolatilityContraction`. -/
structure Volatility where
  contraction : ℚ
  trend : Trend
deriving DecidableEq

/-- Return record of `calculatePriceTightness`. -/
structure Tightness where
  score : ℚ
  description : String
deriving DecidableEq

/-- Return record of `analyzeVolume`. -/
structure VolumeInfo where
  dryUp : Bool
  trend : Trend
  description : String
deriving DecidableEq

/-- Return record of `assessBreakoutPotential`. -/
structure BreakoutInfo where
  score : ℚ
  description : String
deriving DecidableEq

/-- `VCPDetector.checkUptrend` (stock-data.ts lines 474-484). -/
def checkUptrend (data : List HistoricalDataPoint) : Bool :=
  if data.length < 50 then false
  else
    let recent := jsSlice1 data (-20)
    let older := jsSlice data (-50) (-30)
    let recentAvg := sumBy (·.close) recent / (recent.length : ℚ)
    let olderAvg := sumBy (·.close) older / (older.length : ℚ)
    decide (recentAvg > olderAvg * 1.05)

/-- `VCPDetector.findBases` (lines 489-522): the loop
`for (let i = 10; i < data.length - 10; i++)` collecting a base for every
window whose range is below 8% of its mean close. -/
def findBases (data : List HistoricalDataPoint) : List Base :=
  ((List.range data.length).filter
      (fun i => decide (10 ≤ i ∧ i + 10 < data.length))).filterMap
    (fun (i : Nat) =>
      let window := jsSlice data ((i : Int) - 10) ((i : Int) + 10)
      let high := jsMax (window.map (·.high))
      let low := jsMin (window.map (·.low))
      let range := high - low
      let avgPrice := sumBy (·.close) window / (window.length : ℚ)
      if range / avgPrice < 0.08 then
        some { startIdx := i - 10, endIdx := i + 10,
               depth := range / avgPrice, duration := 20 }
      else none)

/-- The volatility of one lookback period inside
`calculateVolatilityContraction` (lines 531-546): annualized standard
deviation of daily returns, `Math.sqrt` abstracted as `sqrtFn`. -/
def periodVolatility (sqrtFn : ℚ → ℚ) (data : List HistoricalDataPoint)
    (period : Nat) : ℚ :=
  let recent := jsSlice1 data (-(period : Int))
  if recent.length < 2 then 0
  else
    let returns := (recent.zip recent.tail).map
      (fun p => (p.2.close - p.1.close) / p.1.close)
    let mean := sumBy id returns / (returns.length : ℚ)
    let variance := sumBy (fun r => (r - mean) ^ 2) returns / (returns.length : ℚ)
    sqrtFn variance * sqrtFn 252

/-- `VCPDetector.calculateVolatilityContraction` (lines 527-561): the three
lookback periods `[20, 10, 5]` are mapped through `periodVolatility` and
destructured as `[longVol, mediumVol, shortVol]`. -/
def calculateVolatilityContraction (sqrtFn : ℚ → ℚ)
    (data : List HistoricalDataPoint) : Volatility :=
  let longVol := periodVolatility sqrtFn data 20
  let mediumVol := periodVolatility sqrtFn data 10
  let shortVol := periodVolatility sqrtFn data 5
  let contraction := if longVol > 0 then (1 - shortVol / longVol) * 100 else 0
  let trend :=
    if shortVol < mediumVol * 0.8 ∧ mediumVol < longVol * 0.8 then
      Trend.decreasing
    else if shortVol > mediumVol * 1.2 ∧ mediumVol > longVol * 1.2 then
      Trend.increasing
    else Trend.stable
  ⟨max 0 contraction, trend⟩

/-- `VCPDetector.calculatePriceTightness` (lines 566-600). -/
def calculatePriceTightness (data : List HistoricalDataPoint) : Tightness :=
  let recent := jsSlice1 data (-10)
  if recent.length < 5 then ⟨0, "Insufficient data"⟩
  else
    let high := jsMax (recent.map (·.high))
    let low := jsMin (recent.map (·.low))
    let avgPrice := sumBy (·.close) recent / (recent.length : ℚ)
    let range := high - low
    let tightness := (1 - range / avgPrice) * 100
    if tightness > 85 then ⟨90, "Very tight price action"⟩
    else if tightness > 70 then ⟨75, "Tight price action"⟩
    else if tightness > 50 then ⟨50, "Moderate price action"⟩
    else ⟨25, "Loose price action"⟩

/-- `VCPDetector.analyzeVolume` (lines 605-634). -/
def analyzeVolume (data : List HistoricalDataPoint) : VolumeInfo :=
  let recent := jsSlice1 data (-20)
  let older := jsSlice data (-40) (-20)
  if recent.length = 0 ∨ older.length = 0 then
    ⟨false, Trend.stable, "Insufficient data"⟩
  else
    let recentAvgVol := sumBy (·.volume) recent / (recent.length : ℚ)
    let olderAvgVol := sumBy (·.volume) older / (older.length : ℚ)
    let volumeRatio := recentAvgVol / olderAvgVol
    let trend :=
      if volumeRatio < 0.7 then Trend.decreasing
      else if volumeRatio > 1.3 then Trend.increasing
      else Trend.stable
    ⟨decide (volumeRatio < 0.7), trend,
      "Volume " ++ (match trend with
        | Trend.decreasing => "drying up"
        | Trend.increasing => "increasing"
        | Trend.stable => "stable")⟩

/-- `VCPDetector.assessBreakoutPotential` (lines 639-675). -/
def assessBreakoutPotential (data : List HistoricalDataPoint) : BreakoutInfo :=
  let recent := jsSlice1 data (-10)
  if recent.length < 5 then ⟨0, "Insufficient data"⟩
  else
    let currentPrice := (lastD recent).close
    let resistance := jsMax ((jsSlice recent 0 (-1)).map (·.high))
    let support := jsMin ((jsSlice recent 0 (-1)).map (·.low))
    let distanceToResistance := (resistance - currentPrice) / currentPrice
    let range := resistance - support
    let position := (currentPrice - support) / range
    if distanceToResistance < 0.02 ∧ position > 0.7 then
      ⟨85, "Near resistance, high breakout potential"⟩
    else if distanceToResistance < 0.05 ∧ position > 0.6 then
      ⟨70, "Approaching resistance, good breakout potential"⟩
    else if position > 0.5 then
      ⟨50, "In upper range, moderate breakout potential"⟩
    else ⟨30, "In lower range, low breakout potential"⟩

/-- `VCPDetector.findEntryPoints` (lines 680-719): pushes a breakout entry
(if resistance is more than 1% above the current price), always a pivot
entry, a support entry (if support is more than 2% below the current
price), then sorts by confidence descending
(`entryPoints.sort((a, b) => b.confidence - a.confidence)`). -/
def findEntryPoints (data : List HistoricalDataPoint) : List EntryPoint :=
  let recent := jsSlice1 data (-20)
  if recent.length < 10 then []
  else
    let currentPrice := (lastD recent).close
    let resistance := jsMax ((jsSlice recent 0 (-1)).map (·.high))
    let support := jsMin ((jsSlice recent 0 (-1)).map (·.low))
    let entryPoints :=
      (if resistance > currentPrice * 1.01 then
        [⟨EPType.breakout, resistance * 1.01, 75, "Breakout above resistance"⟩]
      else []) ++
      [⟨EPType.pivot, currentPrice, 60, "Pivot point at current level"⟩] ++
      (if support < currentPrice * 0.98 then
        [⟨EPType.support, support * 0.99, 45, "Support level bounce"⟩]
      else [])
    entryPoints.mergeSort (fun a b => decide (b.confidence ≤ a.confidence))

/-- `VCPDetector.calculateVCPScore` (lines 724-754). -/
def calculateVCPScore (uptrend : Bool) (bases : List Base)
    (volatility : Volatility) (tightness : Tightness)
    (volumeAnalysis : VolumeInfo) (breakout : BreakoutInfo) : ℚ :=
  let score : ℚ := if uptrend then 20 else 0
  let baseScore := min 25 ((bases.length : ℚ) * 8)
  let score := score + baseScore
  let score := score + min 20 (volatility.contraction * 0.4)
  let score := score + tightness.score * 0.15
  let score := score + (if volumeAnalysis.dryUp then (10 : ℚ) else 0)
  let score := score + breakout.score * 0.1
  min 100 ((round score : ℤ) : ℚ)

/-- `VCPDetector.generateDescription` (lines 759-774). -/
def generateDescription (hasPattern : Bool) (score : ℚ) (bases : List Base)
    (volatility : Volatility) (tightness : Tightness)
    (volumeAnalysis : VolumeInfo) (breakout : BreakoutInfo) : String :=
  if !hasPattern then
    "No VCP pattern detected. Stock does not meet the criteria for Volatility Contraction Pattern."
  else
    String.intercalate " "
      [ "VCP pattern detected with " ++ qToStr score ++ "% confidence.",
        "Found " ++ toString bases.length ++ " base formations.",
        "Volatility contraction: " ++ toFixedStr 1 volatility.contraction ++ "%.",
        "Price action: " ++ tightness.description ++ ".",
        "Volume: " ++ volumeAnalysis.description ++ ".",
        "Breakout potential: " ++ breakout.description ++ "." ]

/-- The `VCPResult` returned by `analyzeVCP` when the series has fewer than
50 points (lines 409-421). -/
def insufficientResult : VCPResult :=
  ⟨false, 0, 0, 0, 0, false, 0, [], "Insufficient data for analysis"⟩

/-- `[...data].sort((a, b) => a.date.getTime() - b.date.getTime())`
(line 424): stable ascending sort of a copy of the input by date. -/
def sortByDate (data : List HistoricalDataPoint) : List HistoricalDataPoint :=
  data.mergeSort (fun a b => decide (a.date ≤ b.date))

/-- Body of `analyzeVCP` after the length guard (lines 423-468), as a
function of the chronologically sorted copy of the input. -/
def analyzeBody (sqrtFn : ℚ → ℚ)
    (sortedData : List HistoricalDataPoint) : VCPResult :=
  let recentData := jsSlice1 sortedData (-100)
  let uptrend := checkUptrend recentData
  let bases := findBases recentData
  let volatility := calculateVolatilityContraction sqrtFn recentData
  let tightness := calculatePriceTightness recentData
  let volumeAnalysis := analyzeVolume recentData
  let breakout := assessBreakoutPotential recentData
  let entryPoints := findEntryPoints recentData
  let score := calculateVCPScore uptrend bases volatility tightness
    volumeAnalysis breakout
  let hasPattern := decide (score > 60)
  ⟨hasPattern, score, bases.length, volatility.contraction, tightness.score,
    volumeAnalysis.dryUp, breakout.score, entryPoints,
    generateDescription hasPattern score bases volatility tightness
      volumeAnalysis breakout⟩

/-- `VCPDetector.analyzeVCP` (lines 408-469). -/
def analyzeVCP (sqrtFn : ℚ → ℚ) (data : List HistoricalDataPoint) : VCPResult :=
  if data.length < 50 then insufficientResult
  else analyzeBody sqrtFn (sortByDate data)

/-- State-passing embedding of lines 423-427 for the frame claim: the caller
passes in the contents of its array; the spread `[...data]` creates a copy
and the in-place `.sort` is applied to that copy only, so the first
component returned — the contents of the caller array when the call
returns — is the input unchanged.  (Had the source written `data.sort(...)`,
this embedding would have to return the sorted list instead.) -/
def analyzeVCPFrame (sqrtFn : ℚ → ℚ) (data : List HistoricalDataPoint) :
    List HistoricalDataPoint × VCPResult :=
  if data.length < 50 then (data, insufficientResult)
  else
    let copy := data
    let sortedData := sortByDate copy
    (data, analyzeBody sqrtFn sortedData)

end VCPDetector

namespace EntryMonitor

/-- Signal kinds:
`'breakout' | 'pivot' | 'support' | 'volume_spike' | 'moving_average'`. -/
inductive SignalKind where
  | breakout
  | pivot
  | support
  | volumeSpike
  | movingAverage
deriving DecidableEq

/-- `EntrySignal` from `src/unnamed/part_004` (lines 6-18).  The source
field `riskRewardRatio` is named `riskReward` here; `timestamp` is the
epoch time of the `new Date()` the strategy creates. -/
structure EntrySignal where
  symbol : String
  name : String
  signalType : SignalKind
  confidence : ℚ
  currentPrice : ℚ
  targetPrice : ℚ
  stopLoss : ℚ
  riskReward : ℚ
  timeframe : String
  reason : String
  timestamp : Int
deriving DecidableEq

/-- `MonitoringConfig` (lines 20-26). -/
structure MonitoringConfig where
  checkInterval : ℚ
  timeframes : List String
  minConfidence : ℚ
  maxRiskPerTrade : ℚ
  enableEmailAlerts : Bool
deriving DecidableEq

/-- The constructor default configuration (lines 32-41). -/
def defaultConfig : MonitoringConfig :=
  ⟨15, ["1h", "4h"], 70, 2, true⟩

/-- The database row for a stock scan, flattened over the
`include: { scan: { include: { scanConfig: true } } }` joins the monitor
performs: `scanConfigName` is `stockScan.scan.scanConfig.name`,
`scanConfigUserId` is `stockScan.scan.scanConfig.userId`, and `etfSymbol`
is `stockScan.scan.etfSymbol`. -/
structure StockScan where
  id : String
  symbol : String
  name : String
  hasVcpPattern : Bool
  vcpScore : ℚ
  entrySignal : Bool
  lastPrice : ℚ
  volume : ℚ
  scanConfigName : String
  scanConfigUserId : String
  etfSymbol : String
deriving DecidableEq

/-- One dispatched e-mail alert
(`emailService.sendEntrySignalAlert(userId, alertData)`), recorded with the
id of the stock scan it concerns. -/
structure Alert where
  userId : String
  stockScanId : String
deriving DecidableEq

/-- The mutable state owned by an `EntryMonitor` instance together with the
persistent rows it reads and writes: `intervals` models the
`Map<string, NodeJS.Timeout>` (timer handles are allocated from
`nextHandle`; `cancelledTimers` records every handle passed to
`clearInterval`), `dbScans` models the `stockScan` table, and
`notificationsSent` is the log of alerts handed to the e-mail
collaborator. -/
structure MonitorState where
  intervals : List (String × Nat)
  nextHandle : Nat
  cancelledTimers : List Nat
  config : MonitoringConfig
  dbScans : List StockScan
  notificationsSent : List Alert
deriving DecidableEq

/-- The environment of external collaborators a check runs against:
`fetch symbol` is the `historicalData` that
`stockDataService.getStockData(symbol)` returns (an empty list models a
missing/empty fetch), and `now` is the current clock. -/
structure Env where
  fetch : String → List HistoricalDataPoint
  now : Int

/-- `Map.prototype.get`. -/
def mapGet : List (String × Nat) → String → Option Nat
  | [], _ => none
  | p :: rest, k => if p.1 = k then some p.2 else mapGet rest k

/-- `Map.prototype.delete`.  A JavaScript map holds each key at most once;
removing every pair with the key is the total-function counterpart. -/
def mapDelete : List (String × Nat) → String → List (String × Nat)
  | [], _ => []
  | p :: rest, k =>
    if p.1 = k then mapDelete rest k else p :: mapDelete rest k

/-- `Map.prototype.set`: replace the entry if the key is present, append
otherwise. -/
def mapSet : List (String × Nat) → String → Nat → List (String × Nat)
  | [], k, v => [(k, v)]
  | p :: rest, k, v =>
    if p.1 = k then (k, v) :: rest else p :: mapSet rest k v

/-- `db.stockScan.findUnique({ where: { id } })`. -/
def findScan (db : List StockScan) (id : String) : Option StockScan :=
  db.find? (fun sc => sc.id == id)

/-- `EntryMonitor.calculateMA` (lines 404-409). -/
def calculateMA (data : List HistoricalDataPoint) (period : Nat) : Option ℚ :=
  if data.length < period then none
  else some (sumBy (·.close) (jsSlice1 data (-(period : Int))) / (period : ℚ))

/-- `EntryMonitor.checkBreakoutSignal` (lines 197-231). -/
def checkBreakoutSignal (scan : StockScan) (data : List HistoricalDataPoint)
    (timeframe : String) (now : Int) : Option EntrySignal :=
  if data.length < 20 then none
  else
    let recent := jsSlice1 data (-10)
    let currentPrice := (lastD recent).close
    let resistance := jsMax ((jsSlice recent 0 (-1)).map (·.high))
    let breakoutThreshold := resistance * 1.01
    if currentPrice ≥ breakoutThreshold then
      let volume := (lastD recent).volume
      let avgVolume :=
        sumBy (·.volume) (jsSlice recent 0 (-1)) / ((recent.length : ℚ) - 1)
      let volumeRatio := volume / avgVolume
      let confidence := min 95 (70 +
        (if volumeRatio > 1.5 then (15 : ℚ)
         else if volumeRatio > 1.2 then 10 else 5))
      some
        { symbol := scan.symbol, name := scan.name,
          signalType := SignalKind.breakout, confidence := confidence,
          currentPrice := currentPrice, targetPrice := currentPrice * 1.08,
          stopLoss := resistance * 0.98,
          riskReward := (currentPrice * 1.08 - currentPrice) /
            (currentPrice - resistance * 0.98),
          timeframe := timeframe,
          reason := "Breakout above resistance at $" ++ toFixedStr 2 resistance
            ++ " with " ++ toFixedStr 1 volumeRatio ++ "x volume",
          timestamp := now }
    else none

/-- `EntryMonitor.checkPivotSignal` (lines 236-273). -/
def checkPivotSignal (scan : StockScan) (data : List HistoricalDataPoint)
    (timeframe : String) (now : Int) : Option EntrySignal :=
  if data.length < 15 then none
  else
    let recent := jsSlice1 data (-8)
    let currentPrice := (lastD recent).close
    let high := jsMax (recent.map (·.high))
    let low := jsMin (recent.map (·.low))
    let close := (lastD recent).close
    let pivot := (high + low + close) / 3
    let support1 := 2 * pivot - high
    let resistance1 := 2 * pivot - low
    let distanceToPivot := |currentPrice - pivot| / pivot
    if distanceToPivot < 0.01 ∧ currentPrice > pivot then
      let confidence := min 85 (65 + (1 - distanceToPivot * 100) * 20)
      some
        { symbol := scan.symbol, name := scan.name,
          signalType := SignalKind.pivot, confidence := confidence,
          currentPrice := currentPrice, targetPrice := resistance1,
          stopLoss := support1,
          riskReward := (resistance1 - currentPrice) /
            (currentPrice - support1),
          timeframe := timeframe,
          reason := "Price at pivot point $" ++ toFixedStr 2 pivot
            ++ ", showing upward momentum",
          timestamp := now }
    else none

/-- `EntryMonitor.checkSupportSignal` (lines 278-313).  The source reads
`recent[recent.length - 2]?.close || currentPrice`: the fallback also
triggers when that close is `0` (a falsy number), which the `if prevRaw = 0`
branch reproduces. -/
def checkSupportSignal (scan : StockScan) (data : List HistoricalDataPoint)
    (timeframe : String) (now : Int) : Option EntrySignal :=
  if data.length < 20 then none
  else
    let recent := jsSlice1 data (-15)
    let currentPrice := (lastD recent).close
    let support := jsMin ((jsSlice recent 0 (-5)).map (·.low))
    let bounceThreshold := support * 1.02
    if currentPrice ≤ bounceThreshold ∧ currentPrice ≥ support then
      let prevRaw := (getD recent (recent.length - 2)).close
      let prevPrice := if prevRaw = 0 then currentPrice else prevRaw
      if currentPrice > prevPrice then
        let confidence :=
          min 80 (60 + ((currentPrice - support) / support) * 1000)
        some
          { symbol := scan.symbol, name := scan.name,
            signalType := SignalKind.support, confidence := confidence,
            currentPrice := currentPrice, targetPrice := support * 1.06,
            stopLoss := support * 0.97,
            riskReward := (support * 1.06 - currentPrice) /
              (currentPrice - support * 0.97),
            timeframe := timeframe,
            reason := "Bouncing off support level at $" ++ toFixedStr 2 support,
            timestamp := now }
      else none
    else none

/-- `EntryMonitor.checkVolumeSignal` (lines 318-358). -/
def checkVolumeSignal (scan : StockScan) (data : List HistoricalDataPoint)
    (timeframe : String) (now : Int) : Option EntrySignal :=
  if data.length < 10 then none
  else
    let recent := jsSlice1 data (-10)
    let currentPrice := (lastD recent).close
    let currentVolume := (lastD recent).volume
    let avgVolume :=
      sumBy (·.volume) (jsSlice recent 0 (-1)) / ((recent.length : ℚ) - 1)
    let volumeRatio := currentVolume / avgVolume
    if volumeRatio > 2 then
      let prevClose := (getD recent (recent.length - 2)).close
      let priceChange := (currentPrice - prevClose) / prevClose
      if |priceChange| > 0.01 then
        let confidence := min 90 (70 + min 20 ((volumeRatio - 2) * 10))
        let isBullish := priceChange > 0
        some
          { symbol := scan.symbol, name := scan.name,
            signalType := SignalKind.volumeSpike, confidence := confidence,
            currentPrice := currentPrice,
            targetPrice :=
              if isBullish then currentPrice * 1.05 else currentPrice * 0.95,
            stopLoss :=
              if isBullish then currentPrice * 0.97 else currentPrice * 1.03,
            riskReward :=
              if isBullish then
                (currentPrice * 1.05 - currentPrice) /
                  (currentPrice - currentPrice * 0.97)
              else
                (currentPrice - currentPrice * 0.95) /
                  (currentPrice * 1.03 - currentPrice),
            timeframe := timeframe,
            reason := "Volume spike of " ++ toFixedStr 1 volumeRatio
              ++ "x average with "
              ++ (if isBullish then "bullish" else "bearish")
              ++ " price movement",
            timestamp := now }
      else none
    else none

/-- `EntryMonitor.checkMovingAverageSignal` (lines 363-399). -/
def checkMovingAverageSignal (scan : StockScan)
    (data : List HistoricalDataPoint) (timeframe : String) (now : Int) :
    Option EntrySignal :=
  if data.length < 50 then none
  else
    let recent := jsSlice1 data (-20)
    let currentPrice := (lastD recent).close
    match calculateMA recent 20, calculateMA (jsSlice1 data (-50)) 50 with
    | some ma20, some ma50 =>
      if currentPrice > ma20 ∧ currentPrice > ma50 ∧ ma20 > ma50 then
        let confidence := min 85 (65 + (if ma20 > ma50 then (10 : ℚ) else 0)
          + (if currentPrice > ma20 then (5 : ℚ) else 0))
        some
          { symbol := scan.symbol, name := scan.name,
            signalType := SignalKind.movingAverage, confidence := confidence,
            currentPrice := currentPrice, targetPrice := currentPrice * 1.06,
            stopLoss := min ma20 ma50 * 0.98,
            riskReward := (currentPrice * 1.06 - currentPrice) /
              (currentPrice - min ma20 ma50 * 0.98),
            timeframe := timeframe,
            reason := "Price above both 20-period MA ($" ++ toFixedStr 2 ma20
              ++ ") and 50-period MA ($" ++ toFixedStr 2 ma50 ++ ")",
            timestamp := now }
      else none
    | _, _ => none

/-- The singleton/empty list a nullable strategy result contributes to the
`signals` array. -/
def optList {α : Type} : Option α → List α
  | none => []
  | some x => [x]

/-- `signals.reduce((best, current) =>
current.confidence > best.confidence ? current : best)` (lines 185-187),
with `null` for the empty array. -/
def pickBest : List EntrySignal → Option EntrySignal
  | [] => none
  | s :: rest =>
    some (rest.foldl
      (fun best cur => if cur.confidence > best.confidence then cur else best)
      s)

/-- `EntryMonitor.analyzeTimeframe` (lines 146-192): `historicalData` is
what the market-data collaborator returned for `scan.symbol` (the fetch is
independent of the timeframe in the source as well); empty data means no
signal, otherwise the five strategies run over the last 50 points and the
highest-confidence result wins. -/
def analyzeTimeframe (scan : StockScan) (timeframe : String)
    (historicalData : List HistoricalDataPoint) (now : Int) :
    Option EntrySignal :=
  if historicalData.length = 0 then none
  else
    let recentData := jsSlice1 historicalData (-50)
    let signals :=
      optList (checkBreakoutSignal scan recentData timeframe now) ++
      optList (checkPivotSignal scan recentData timeframe now) ++
      optList (checkSupportSignal scan recentData timeframe now) ++
      optList (checkVolumeSignal scan recentData timeframe now) ++
      optList (checkMovingAverageSignal scan recentData timeframe now)
    pickBest signals

/-- `EntryMonitor.stopMonitoring` (lines 85-92). -/
def stopMonitoring (id : String) (s : MonitorState) : MonitorState :=
  match mapGet s.intervals id with
  | some h =>
    { s with intervals := mapDelete s.intervals id,
             cancelledTimers := s.cancelledTimers ++ [h] }
  | none => s

/-- `EntryMonitor.handleEntrySignal` (lines 414-455): persist the signal on
the stock-scan row, then dispatch an e-mail alert when
`config.enableEmailAlerts` is set. -/
def handleEntrySignal (scan : StockScan) (sig : EntrySignal)
    (s : MonitorState) : MonitorState :=
  let db2 := s.dbScans.map (fun sc =>
    if sc.id == scan.id then
      { sc with entrySignal := true, lastPrice := sig.currentPrice,
                volume := sig.currentPrice * 1000000 }
    else sc)
  let s1 := { s with dbScans := db2 }
  if s.config.enableEmailAlerts then
    { s1 with notificationsSent :=
        s1.notificationsSent ++ [⟨scan.scanConfigUserId, scan.id⟩] }
  else s1

/-- The `for (const timeframe of this.config.timeframes)` loop of
`checkForEntrySignals` (lines 127-137): the first timeframe whose signal
reaches `minConfidence` is returned; a sub-threshold or missing signal
moves on to the next timeframe. -/
def findQualifying (env : Env) (scan : StockScan) (minConfidence : ℚ) :
    List String → Option EntrySignal
  | [] => none
  | tf :: rest =>
    match analyzeTimeframe scan tf (env.fetch scan.symbol) env.now with
    | some sig =>
      if sig.confidence ≥ minConfidence then some sig
      else findQualifying env scan minConfidence rest
    | none => findQualifying env scan minConfidence rest

/-- `EntryMonitor.checkForEntrySignals` (lines 108-141): a vanished row
stops monitoring; a qualifying signal is handled (`handleEntrySignal`)
and monitoring stops with the loop `break`; otherwise the state is left
unchanged. -/
def checkForEntrySignals (env : Env) (id : String) (s : MonitorState) :
    MonitorState :=
  match findScan s.dbScans id with
  | none => stopMonitoring id s
  | some scan =>
    match findQualifying env scan s.config.minConfidence s.config.timeframes with
    | some sig => stopMonitoring id (handleEntrySignal scan sig s)
    | none => s

/-- Result of `startMonitoring`: the final state, the error (if any)
propagated to the caller — the promise rejecting — and the message (if any)
passed to `console.error` by the `catch` block. -/
structure StartOutcome where
  state : MonitorState
  raised : Option String
  logged : Option String
deriving DecidableEq

/-- `EntryMonitor.startMonitoring` (lines 46-80).  The whole body sits in a
`try { ... } catch (error) { console.error(...) }`, so the `throw new
Error('Stock scan not found or no VCP pattern detected')` for a missing or
pattern-less row is caught inside the method and only logged: `raised` is
`none` on every path.  On the eligible path the method stops any existing
monitoring, registers a fresh interval timer, and runs one check
immediately. -/
def startMonitoring (env : Env) (id : String) (s : MonitorState) :
    StartOutcome :=
  let eligible := match findScan s.dbScans id with
    | some scan => scan.hasVcpPattern
    | none => false
  if eligible then
    let s1 := stopMonitoring id s
    let h := s1.nextHandle
    let s2 := { s1 with intervals := mapSet s1.intervals id h,
                        nextHandle := h + 1 }
    let s3 := checkForEntrySignals env id s2
    ⟨s3, none, none⟩
  else
    ⟨s, none, some "Stock scan not found or no VCP pattern detected"⟩

/-- Number of alerts dispatched so far for the given stock-scan id. -/
def notifsFor (id : String) (s : MonitorState) : Nat :=
  (s.notificationsSent.filter (fun a => a.stockScanId == id)).length

/-- Number of watch entries (live timers) registered for the given id. -/
def countFor (id : String) (m : List (String × Nat)) : Nat :=
  (m.filter (fun p => p.1 == id)).length

/-- The events the monitor reacts to: an API call to `startMonitoring` or
`stopMonitoring`, or the firing of an instrument's interval timer. -/
inductive Step where
  | start (id : String)
  | stop (id : String)
  | tick (id : String)
deriving DecidableEq

/-- A timer can only fire for an instrument that has a registered interval;
the API calls are always available. -/
def enabled (s : MonitorState) : Step → Bool
  | Step.tick id => (mapGet s.intervals id).isSome
  | _ => true

/-- Effect of one event on the monitor state. -/
def stepRun (env : Env) (s : MonitorState) : Step → MonitorState
  | Step.start id => (startMonitoring env id s).state
  | Step.stop id => stopMonitoring id s
  | Step.tick id => checkForEntrySignals env id s

/-- `validRun env s steps s2`: the event sequence `steps` is a schedulable
run from `s` to `s2` — every timer tick in it fires for an instrument that
is registered at that moment. -/
inductive validRun (env : Env) : MonitorState → List Step → MonitorState → Prop
  | nil (s : MonitorState) : validRun env s [] s
  | cons (s : MonitorState) (st : Step) (steps : List Step)
      (s2 : MonitorState) (henabled : enabled s st = true)
      (hrest : validRun env (stepRun env s st) steps s2) :
      validRun env s (st :: steps) s2

end EntryMonitor

/-!
Concrete inputs used by the witnesses and counterexamples below.
-/

namespace VCPDetector

/-- Two-point series (reversed copies of each other) used to witness C7. -/
def hdpEarly : HistoricalDataPoint := ⟨1, 10, 11, 9, 10, 100⟩

/-- Second point of the C7 witness series. -/
def hdpLate : HistoricalDataPoint := ⟨2, 12, 13, 11, 12, 200⟩

/-- A flat bar (close 100, high 100, low 90) for the C6 evaluation: nine of
these followed by themselves put support at 90, more than 2% below the
current price of 100, so `findEntryPoints` emits a support-bounce entry. -/
def barC6 : HistoricalDataPoint := ⟨0, 100, 100, 90, 100, 100⟩

/-- Ten-bar series on which the support-bounce entry point fires. -/
def dataC6 : List HistoricalDataPoint := List.replicate 10 barC6

end VCPDetector

namespace EntryMonitor

/-- An eligible stock-scan row (a detected VCP pattern) with id `"X"`. -/
def scanX : StockScan :=
  ⟨"X", "ACME", "Acme Corp", true, 80, false, 0, 0, "scan1", "user1", "SPY"⟩

/-- A stock-scan row with id `"Y"` and no detected pattern (ineligible). -/
def scanY : StockScan :=
  ⟨"Y", "BETA", "Beta Inc", false, 0, false, 0, 0, "scan1", "user1", "SPY"⟩

/-- A flat bar: close 100, volume 100. -/
def barFlat : HistoricalDataPoint := ⟨0, 100, 100, 100, 100, 100⟩

/-- A spike bar: close 102 (up 2%), volume 300 (3x the flat average). -/
def barSpike : HistoricalDataPoint := ⟨0, 102, 102, 102, 102, 300⟩

/-- A ten-bar window ending in a 3x-volume 2%-up bar: the volume-spike
strategy fires on it with confidence 80, all other strategies are below
their minimum window lengths. -/
def dataSpike : List HistoricalDataPoint :=
  List.replicate 9 barFlat ++ [barSpike]

/-- Environment whose market-data fetch always yields the spike window. -/
def envSpike : Env := ⟨fun _ => dataSpike, 0⟩

/-- Environment whose market-data fetch always fails (empty data), so no
strategy ever produces a signal. -/
def envEmpty : Env := ⟨fun _ => [], 0⟩

/-- The default configuration with e-mail alerts disabled (the constructor
accepts `{ enableEmailAlerts: false }`). -/
def configNoAlerts : MonitoringConfig := ⟨15, ["1h", "4h"], 70, 2, false⟩

/-- A state in which `"X"` is being watched (timer handle 5), under the
default (alerts-enabled) configuration. -/
def sWatchX : MonitorState :=
  ⟨[("X", 5)], 6, [], defaultConfig, [scanX], []⟩

/-- The same watching state with e-mail alerts disabled. -/
def sWatchXNoAlerts : MonitorState :=
  ⟨[("X", 5)], 6, [], configNoAlerts, [scanX], []⟩

/-- An idle state containing the eligible row `"X"`. -/
def sIdleX : MonitorState := ⟨[], 0, [], defaultConfig, [scanX], []⟩

/-- An idle state containing only the ineligible row `"Y"`. -/
def sIdleY : MonitorState := ⟨[], 0, [], defaultConfig, [scanY], []⟩

end EntryMonitor

namespace VCPDetector

/-- The tightness score is one of the four band values (or the
insufficient-data zero). -/
theorem tightness_score_bounds (data : List HistoricalDataPoint) :
    0 ≤ (calculatePriceTightness data).score ∧
      (calculatePriceTightness data).score ≤ 90 := by
  unfold calculatePriceTightness
  dsimp only
  split_ifs <;> norm_num

/-- The breakout-potential score is one of the band values (or the
insufficient-data zero). -/
theorem breakout_score_bounds (data : List HistoricalDataPoint) :
    0 ≤ (assessBreakoutPotential data).score ∧
      (assessBreakoutPotential data).score ≤ 85 := by
  unfold assessBreakoutPotential
  dsimp only
  split_ifs <;> norm_num

/-- The volatility contraction is clamped at zero by `Math.max(0, ...)`. -/
theorem contraction_nonneg (sqrtFn : ℚ → ℚ) (data : List HistoricalDataPoint) :
    0 ≤ (calculateVolatilityContraction sqrtFn data).contraction := by
  unfold calculateVolatilityContraction
  exact le_max_left 0 _

/-- The composite score is clamped to `[0, 100]` for every combination of
indicator values whose components satisfy their own bounds. -/
theorem calculateVCPScore_bounds (uptrend : Bool) (bases : List Base)
    (volatility : Volatility) (tightness : Tightness)
    (volumeAnalysis : VolumeInfo) (breakout : BreakoutInfo)
    (hc : 0 ≤ volatility.contraction) (ht : 0 ≤ tightness.score)
    (hb : 0 ≤ breakout.score) :
    0 ≤ calculateVCPScore uptrend bases volatility tightness volumeAnalysis
        breakout ∧
      calculateVCPScore uptrend bases volatility tightness volumeAnalysis
        breakout ≤ 100 := by
  unfold calculateVCPScore
  refine ⟨le_min (by norm_num) ?_, min_le_left _ _⟩
  have h1 : (0 : ℚ) ≤ (if uptrend then (20 : ℚ) else 0) := by
    split <;> norm_num
  have h2 : (0 : ℚ) ≤ min 25 ((bases.length : ℚ) * 8) := by
    refine le_min (by norm_num) (by positivity)
  have h3 : (0 : ℚ) ≤ min 20 (volatility.contraction * 0.4) := by
    refine le_min (by norm_num) (by nlinarith)
  have h4 : (0 : ℚ) ≤ tightness.score * 0.15 := by nlinarith
  have h5 : (0 : ℚ) ≤ (if volumeAnalysis.dryUp then (10 : ℚ) else 0) := by
    split <;> norm_num
  have h6 : (0 : ℚ) ≤ breakout.score * 0.1 := by nlinarith
  have hsum : (0 : ℚ) ≤ (if uptrend then (20 : ℚ) else 0)
      + min 25 ((bases.length : ℚ) * 8)
      + min 20 (volatility.contraction * 0.4) + tightness.score * 0.15
      + (if volumeAnalysis.dryUp then (10 : ℚ) else 0)
      + breakout.score * 0.1 := by linarith
  have : (0 : ℤ) ≤ round ((if uptrend then (20 : ℚ) else 0)
      + min 25 ((bases.length : ℚ) * 8)
      + min 20 (volatility.contraction * 0.4) + tightness.score * 0.15
      + (if volumeAnalysis.dryUp then (10 : ℚ) else 0)
      + breakout.score * 0.1) := by
    rw [round_eq]
    exact Int.floor_nonneg.mpr (by linarith)
  exact_mod_cast this

/-- C1: for every input series with fewer than 50 points, `analyzeVCP`
returns the fixed insufficient-data result — `hasPattern = false`,
`score = 0`, `baseCount = 0`, all indicator fields zeroed, no entry points,
description `"Insufficient data for analysis"` — and, being a total
function, signals no error. -/
theorem c1_short_series_insufficient (sqrtFn : ℚ → ℚ)
    (data : List HistoricalDataPoint) (h : data.length < 50) :
    analyzeVCP sqrtFn data =
      ⟨false, 0, 0, 0, 0, false, 0, [], "Insufficient data for analysis"⟩ := by
  unfold analyzeVCP insufficientResult
  rw [if_pos h]

/-- Witness for C1 at a concrete 40-point series. -/
theorem c1_short_series_insufficient_witness :
    (List.replicate 40 hdpZero).length < 50 ∧
      analyzeVCP (fun _ => 0) (List.replicate 40 hdpZero) =
        ⟨false, 0, 0, 0, 0, false, 0, [], "Insufficient data for analysis"⟩ :=
  ⟨by simp, c1_short_series_insufficient (fun _ => 0) _ (by simp)⟩

/-- C2: for every input series (and every square-root interpretation), the
composite score returned by `analyzeVCP` lies in `[0, 100]`, and the
returned `hasPattern` flag is `true` exactly when that score exceeds 60. -/
theorem c2_score_range_and_threshold (sqrtFn : ℚ → ℚ)
    (data : List HistoricalDataPoint) :
    0 ≤ (analyzeVCP sqrtFn data).score ∧
      (analyzeVCP sqrtFn data).score ≤ 100 ∧
      ((analyzeVCP sqrtFn data).hasPattern = true ↔
        60 < (analyzeVCP sqrtFn data).score) := by
  unfold analyzeVCP
  split
  · unfold insufficientResult
    norm_num
  · unfold analyzeBody
    simp only
    have hbounds := calculateVCPScore_bounds (checkUptrend (jsSlice1 (sortByDate data) (-100)))
      (findBases (jsSlice1 (sortByDate data) (-100)))
      (calculateVolatilityContraction sqrtFn (jsSlice1 (sortByDate data) (-100)))
      (calculatePriceTightness (jsSlice1 (sortByDate data) (-100)))
      (analyzeVolume (jsSlice1 (sortByDate data) (-100)))
      (assessBreakoutPotential (jsSlice1 (sortByDate data) (-100)))
      (contraction_nonneg sqrtFn _) (tightness_score_bounds _).1
      (breakout_score_bounds _).1
    exact ⟨hbounds.1, hbounds.2, by simp [decide_eq_true_iff]⟩

end VCPDetector

namespace VCPDetector

/-- The comparator used for entry points is transitive. -/
theorem epLE_trans (a b c : EntryPoint)
    (h1 : decide (b.confidence ≤ a.confidence) = true)
    (h2 : decide (c.confidence ≤ b.confidence) = true) :
    decide (c.confidence ≤ a.confidence) = true := by
  simp only [decide_eq_true_iff] at *
  exact le_trans h2 h1

/-- The comparator used for entry points is total. -/
theorem epLE_total (a b : EntryPoint) :
    (decide (b.confidence ≤ a.confidence) ||
      decide (a.confidence ≤ b.confidence)) = true := by
  simp only [Bool.or_eq_true, decide_eq_true_iff]
  exact le_total b.confidence a.confidence

/-- The list built by `findEntryPoints` is sorted by confidence
descending. -/
theorem findEntryPoints_sorted (data : List HistoricalDataPoint) :
    (findEntryPoints data).Pairwise
      (fun a b => b.confidence ≤ a.confidence) := by
  unfold findEntryPoints
  dsimp only
  split
  · exact List.Pairwise.nil
  · have := List.sorted_mergeSort epLE_trans epLE_total
      ((if jsMax ((jsSlice (jsSlice1 data (-20)) 0 (-1)).map (·.high)) >
          (lastD (jsSlice1 data (-20))).close * 1.01 then
        [⟨EPType.breakout,
          jsMax ((jsSlice (jsSlice1 data (-20)) 0 (-1)).map (·.high)) * 1.01,
          75, "Breakout above resistance"⟩]
      else []) ++
      [⟨EPType.pivot, (lastD (jsSlice1 data (-20))).close, 60,
        "Pivot point at current level"⟩] ++
      (if jsMin ((jsSlice (jsSlice1 data (-20)) 0 (-1)).map (·.low)) <
          (lastD (jsSlice1 data (-20))).close * 0.98 then
        [⟨EPType.support,
          jsMin ((jsSlice (jsSlice1 data (-20)) 0 (-1)).map (·.low)) * 0.99,
          45, "Support level bounce"⟩]
      else []))
    exact this.imp (fun h => of_decide_eq_true h)

/-- C8: in every `VCPResult` produced by `analyzeVCP`, the `entryPoints`
list is sorted by confidence in descending order. -/
theorem c8_entry_points_sorted_desc (sqrtFn : ℚ → ℚ)
    (data : List HistoricalDataPoint) :
    ((analyzeVCP sqrtFn data).entryPoints).Pairwise
      (fun a b => b.confidence ≤ a.confidence) := by
  unfold analyzeVCP
  split
  · exact List.Pairwise.nil
  · exact findEntryPoints_sorted _

/-- C7: `analyzeVCP` is deterministic and insensitive to the input order —
any two input series with the same chronologically sorted form (in
particular, the same series presented twice, or an unsorted permutation
with distinct timestamps) produce identical `VCPResult` values. -/
theorem c7_deterministic_after_sort (sqrtFn : ℚ → ℚ)
    (d1 d2 : List HistoricalDataPoint) (h : sortByDate d1 = sortByDate d2) :
    analyzeVCP sqrtFn d1 = analyzeVCP sqrtFn d2 := by
  have hlen : d1.length = d2.length := by
    have := congrArg List.length h
    simpa [sortByDate] using this
  unfold analyzeVCP
  rw [hlen, h]

unseal List.merge List.mergeSort in
/-- Witness for C7: the unsorted series `[late, early]` and the sorted
series `[early, late]` have the same sorted form, hence the same analysis
result. -/
theorem c7_deterministic_after_sort_witness :
    sortByDate [hdpLate, hdpEarly] = sortByDate [hdpEarly, hdpLate] ∧
      analyzeVCP (fun _ => 0) [hdpLate, hdpEarly] =
        analyzeVCP (fun _ => 0) [hdpEarly, hdpLate] := by
  have h : sortByDate [hdpLate, hdpEarly] = sortByDate [hdpEarly, hdpLate] := by
    rfl
  exact ⟨h, c7_deterministic_after_sort (fun _ => 0) _ _ h⟩

end VCPDetector

namespace VCPDetector

/-- C10: `analyzeVCP` does not mutate the caller's array.  In the
state-passing embedding `analyzeVCPFrame` of lines 423-427 — where the
spread `[...data]` copies the input and the in-place `.sort` hits only the
copy — the caller's array after the call is the input unchanged, and the
result is the one `analyzeVCP` computes. -/
theorem c10_input_not_mutated (sqrtFn : ℚ → ℚ)
    (data : List HistoricalDataPoint) :
    (analyzeVCPFrame sqrtFn data).1 = data ∧
      (analyzeVCPFrame sqrtFn data).2 = analyzeVCP sqrtFn data := by
  unfold analyzeVCPFrame analyzeVCP
  split <;> exact ⟨rfl, rfl⟩

/-- C6 evaluation: on the concrete ten-bar series `dataC6` the support
level is 90 and the current price 100 (support more than 2% below price),
and the support-bounce entry point the code emits has price
`90 * 0.99 = 89.1` — one percent BELOW the support level — although the
source comment at line 712 says `// 1% above support`.  The claimed price
`90 * 1.01 = 90.9` appears nowhere in the result. -/
theorem c6_support_entry_priced_below_support :
    findEntryPoints dataC6 =
      [⟨EPType.pivot, 100, 60, "Pivot point at current level"⟩,
       ⟨EPType.support, 891/10, 45, "Support level bounce"⟩] ∧
      (891/10 : ℚ) = 90 * 0.99 ∧ (891/10 : ℚ) < 90 ∧
      ∀ e ∈ findEntryPoints dataC6, e.price ≠ 90 * 1.01 := by
  have hfind : findEntryPoints dataC6 =
      [⟨EPType.pivot, 100, 60, "Pivot point at current level"⟩,
       ⟨EPType.support, 891/10, 45, "Support level bounce"⟩] := by
    unfold findEntryPoints dataC6 barC6
    simp [jsSlice1, jsSlice, jsIdx, lastD, getD, jsMax, jsMin,
      List.replicate]
    norm_num
    rw [List.mergeSort_of_sorted (by norm_num)]
  refine ⟨hfind, by norm_num, by norm_num, ?_⟩
  rw [hfind]
  intro e he
  fin_cases he <;> norm_num

end VCPDetector

namespace EntryMonitor

/-- C9: every one of the five signal strategies returns no signal whenever
its input window is shorter than that strategy-specific minimum length —
20 bars for breakout, 15 for pivot, 20 for support bounce, 10 for volume
spike, 50 for moving average, all of which lie between 10 and 50. -/
theorem c9_strategies_return_none_below_min_window (scan : StockScan)
    (data : List HistoricalDataPoint) (tf : String) (now : Int) :
    (data.length < 20 → checkBreakoutSignal scan data tf now = none) ∧
    (data.length < 15 → checkPivotSignal scan data tf now = none) ∧
    (data.length < 20 → checkSupportSignal scan data tf now = none) ∧
    (data.length < 10 → checkVolumeSignal scan data tf now = none) ∧
    (data.length < 50 → checkMovingAverageSignal scan data tf now = none) := by
  refine ⟨fun h => ?_, fun h => ?_, fun h => ?_, fun h => ?_, fun h => ?_⟩
  · unfold checkBreakoutSignal; exact if_pos h
  · unfold checkPivotSignal; exact if_pos h
  · unfold checkSupportSignal; exact if_pos h
  · unfold checkVolumeSignal; exact if_pos h
  · unfold checkMovingAverageSignal; exact if_pos h

/-- Witness for C9: all five strategies return no signal on the empty
window. -/
theorem c9_strategies_return_none_below_min_window_witness :
    checkBreakoutSignal scanX [] "1h" 0 = none ∧
    checkPivotSignal scanX [] "1h" 0 = none ∧
    checkSupportSignal scanX [] "1h" 0 = none ∧
    checkVolumeSignal scanX [] "1h" 0 = none ∧
    checkMovingAverageSignal scanX [] "1h" 0 = none :=
  ⟨(c9_strategies_return_none_below_min_window scanX [] "1h" 0).1 (by simp),
   (c9_strategies_return_none_below_min_window scanX [] "1h" 0).2.1 (by simp),
   (c9_strategies_return_none_below_min_window scanX [] "1h" 0).2.2.1 (by simp),
   (c9_strategies_return_none_below_min_window scanX [] "1h" 0).2.2.2.1 (by simp),
   (c9_strategies_return_none_below_min_window scanX [] "1h" 0).2.2.2.2 (by simp)⟩

/-- C5 counterexample: on a state whose only row (id `"Y"`) has no detected
pattern, `startMonitoring` does NOT fail synchronously to the caller — the
`try/catch` swallows the `NotEligible` error, logging it instead — although
it does leave the state (registry included) untouched. -/
theorem c5_counterexample_error_not_raised :
    (startMonitoring envEmpty "Y" sIdleY).raised = none ∧
    (startMonitoring envEmpty "Y" sIdleY).logged =
      some "Stock scan not found or no VCP pattern detected" ∧
    (startMonitoring envEmpty "Y" sIdleY).state = sIdleY := by
  unfold startMonitoring findScan sIdleY scanY
  simp

/-- C5 amended: when `startMonitoring` is called for an instrument without
a recorded qualifying pattern match (no backing row, or a row without a
detected pattern), no WatchEntry or timer is created — the state is
returned unchanged — but the `NotEligible` error is caught inside
`startMonitoring` and only logged; it is not raised to the caller. -/
theorem c5_ineligible_logged_not_raised (env : Env) (id : String)
    (s : MonitorState)
    (h : ∀ scan, findScan s.dbScans id = some scan →
      scan.hasVcpPattern = false) :
    (startMonitoring env id s).raised = none ∧
    (startMonitoring env id s).logged =
      some "Stock scan not found or no VCP pattern detected" ∧
    (startMonitoring env id s).state = s := by
  unfold startMonitoring
  rcases hfs : findScan s.dbScans id with _ | scan
  · simp [hfs]
  · simp [hfs, h scan hfs]

/-- Witness for C5 at the concrete ineligible state. -/
theorem c5_ineligible_logged_not_raised_witness :
    (startMonitoring envEmpty "Y" sIdleY).raised = none ∧
    (startMonitoring envEmpty "Y" sIdleY).logged =
      some "Stock scan not found or no VCP pattern detected" ∧
    (startMonitoring envEmpty "Y" sIdleY).state = sIdleY :=
  c5_ineligible_logged_not_raised envEmpty "Y" sIdleY (by
    intro scan hs
    have h2 : findScan sIdleY.dbScans "Y" = some scanY := by
      simp [findScan, sIdleY, scanY]
    rw [h2] at hs
    rw [← Option.some_inj.mp hs]
    rfl)

end EntryMonitor

namespace EntryMonitor

/-- Deleting a key removes every entry with that key. -/
theorem mapGet_mapDelete_self (m : List (String × Nat)) (k : String) :
    mapGet (mapDelete m k) k = none := by
  induction m with
  | nil => rfl
  | cons p rest ih =>
    unfold mapDelete
    split
    · exact ih
    · unfold mapGet
      rw [if_neg (by assumption)]
      exact ih

/-- Deletion never introduces a key. -/
theorem mapGet_mapDelete_none (m : List (String × Nat)) (k id : String)
    (h : mapGet m id = none) : mapGet (mapDelete m k) id = none := by
  induction m with
  | nil => rfl
  | cons p rest ih =>
    unfold mapGet at h
    unfold mapDelete
    by_cases hp : p.1 = id
    · rw [if_pos hp] at h; cases h
    · rw [if_neg hp] at h
      split
      · exact ih h
      · unfold mapGet
        rw [if_neg hp]
        exact ih h

/-- Setting one key does not affect lookups of another. -/
theorem mapGet_mapSet_ne (m : List (String × Nat)) (k id : String)
    (v : Nat) (h : id ≠ k) : mapGet (mapSet m k v) id = mapGet m id := by
  induction m with
  | nil =>
    unfold mapSet mapGet
    rw [if_neg (fun hk => h hk.symm)]
    rfl
  | cons p rest ih =>
    unfold mapSet
    split
    · next hp =>
      unfold mapGet
      rw [if_neg (fun hk => h hk.symm), if_neg (by rw [hp]; exact fun hk => h hk.symm)]
    · unfold mapGet
      split
      · rfl
      · exact ih

/-- A key that is absent occurs zero times. -/
theorem countFor_eq_zero_of_mapGet_none (m : List (String × Nat))
    (id : String) (h : mapGet m id = none) : countFor id m = 0 := by
  induction m with
  | nil => rfl
  | cons p rest ih =>
    unfold mapGet at h
    by_cases hp : p.1 = id
    · rw [if_pos hp] at h; cases h
    · rw [if_neg hp] at h
      unfold countFor at *
      rw [List.filter_cons, if_neg (by simp [hp])]
      exact ih h

/-- After deleting a key it occurs zero times. -/
theorem countFor_mapDelete_self (m : List (String × Nat)) (k : String) :
    countFor k (mapDelete m k) = 0 :=
  countFor_eq_zero_of_mapGet_none _ _ (mapGet_mapDelete_self m k)

/-- Multiplicity of a key under a matching head. -/
theorem countFor_cons_eq (p : String × Nat) (rest : List (String × Nat))
    (id : String) (h : p.1 = id) :
    countFor id (p :: rest) = countFor id rest + 1 := by
  unfold countFor
  rw [List.filter_cons]
  simp [h]

/-- Multiplicity of a key under a non-matching head. -/
theorem countFor_cons_ne (p : String × Nat) (rest : List (String × Nat))
    (id : String) (h : ¬p.1 = id) :
    countFor id (p :: rest) = countFor id rest := by
  unfold countFor
  rw [List.filter_cons]
  simp [h]

/-- Deletion can only decrease the multiplicity of a key. -/
theorem countFor_mapDelete_le (m : List (String × Nat)) (k id : String) :
    countFor id (mapDelete m k) ≤ countFor id m := by
  induction m with
  | nil => exact le_refl _
  | cons p rest ih =>
    unfold mapDelete
    by_cases hpk : p.1 = k
    · rw [if_pos hpk]
      refine le_trans ih ?_
      by_cases hpi : p.1 = id
      · rw [countFor_cons_eq p rest id hpi]; exact Nat.le_succ _
      · rw [countFor_cons_ne p rest id hpi]
    · rw [if_neg hpk]
      by_cases hpi : p.1 = id
      · rw [countFor_cons_eq p _ id hpi, countFor_cons_eq p rest id hpi]
        exact Nat.succ_le_succ ih
      · rw [countFor_cons_ne p _ id hpi, countFor_cons_ne p rest id hpi]
        exact ih

/-- Setting an absent key appends the new entry. -/
theorem mapSet_of_mapGet_none (m : List (String × Nat)) (k : String)
    (v : Nat) (h : mapGet m k = none) : mapSet m k v = m ++ [(k, v)] := by
  induction m with
  | nil => rfl
  | cons p rest ih =>
    unfold mapGet at h
    by_cases hp : p.1 = k
    · rw [if_pos hp] at h; cases h
    · rw [if_neg hp] at h
      unfold mapSet
      rw [if_neg hp, ih h]
      rfl

/-- Multiplicity of a key in an appended list. -/
theorem countFor_append (m m2 : List (String × Nat)) (id : String) :
    countFor id (m ++ m2) = countFor id m + countFor id m2 := by
  unfold countFor
  rw [List.filter_append, List.length_append]

/-- `stopMonitoring` leaves everything but the registry and the cancelled
log unchanged, and removes the id from the registry. -/
theorem stopMonitoring_spec (id : String) (s : MonitorState) :
    (stopMonitoring id s).notificationsSent = s.notificationsSent ∧
    (stopMonitoring id s).dbScans = s.dbScans ∧
    (stopMonitoring id s).config = s.config ∧
    (stopMonitoring id s).nextHandle = s.nextHandle ∧
    mapGet (stopMonitoring id s).intervals id = none := by
  unfold stopMonitoring
  rcases h : mapGet s.intervals id with _ | hdl
  · exact ⟨rfl, rfl, rfl, rfl, h⟩
  · exact ⟨rfl, rfl, rfl, rfl, mapGet_mapDelete_self _ _⟩

/-- `stopMonitoring` never adds a registry entry. -/
theorem stopMonitoring_mapGet_none (j id : String) (s : MonitorState)
    (h : mapGet s.intervals id = none) :
    mapGet (stopMonitoring j s).intervals id = none := by
  unfold stopMonitoring
  split
  · exact mapGet_mapDelete_none _ _ _ h
  · exact h

/-- `stopMonitoring` can only decrease the multiplicity of an id. -/
theorem stopMonitoring_countFor_le (j id : String) (s : MonitorState) :
    countFor id (stopMonitoring j s).intervals ≤ countFor id s.intervals := by
  unfold stopMonitoring
  split
  · exact countFor_mapDelete_le _ _ _
  · exact le_refl _

/-- `stopMonitoring` only ever appends to the cancelled-timer log. -/
theorem stopMonitoring_cancelled_mono (j : String) (s : MonitorState)
    (a : Nat) (h : a ∈ s.cancelledTimers) :
    a ∈ (stopMonitoring j s).cancelledTimers := by
  unfold stopMonitoring
  split
  · exact List.mem_append_left _ h
  · exact h

/-- `handleEntrySignal` touches only the database rows and the notification
log. -/
theorem handleEntrySignal_spec (scan : StockScan) (sig : EntrySignal)
    (s : MonitorState) :
    (handleEntrySignal scan sig s).intervals = s.intervals ∧
    (handleEntrySignal scan sig s).cancelledTimers = s.cancelledTimers ∧
    (handleEntrySignal scan sig s).config = s.config ∧
    (handleEntrySignal scan sig s).notificationsSent =
      s.notificationsSent ++
        (if s.config.enableEmailAlerts then
          [⟨scan.scanConfigUserId, scan.id⟩] else []) := by
  unfold handleEntrySignal
  split
  · exact ⟨rfl, rfl, rfl, rfl⟩
  · exact ⟨rfl, rfl, rfl, (List.append_nil _).symm⟩

/-- A row found by id carries that id. -/
theorem findScan_id (db : List StockScan) (id : String) (scan : StockScan)
    (h : findScan db id = some scan) : scan.id = id := by
  have := List.find?_some h
  simpa using this

end EntryMonitor

namespace EntryMonitor

/-- A tick can only decrease the multiplicity of an id in the registry. -/
theorem checkForEntrySignals_countFor_le (env : Env) (j id : String)
    (s : MonitorState) :
    countFor id (checkForEntrySignals env j s).intervals ≤
      countFor id s.intervals := by
  unfold checkForEntrySignals
  rcases hfs : findScan s.dbScans j with _ | scan <;> simp only [hfs]
  · exact stopMonitoring_countFor_le j id s
  · rcases hq : findQualifying env scan s.config.minConfidence s.config.timeframes
      with _ | sig <;> simp only [hq]
    · exact le_refl _
    · refine le_trans (stopMonitoring_countFor_le j id _) ?_
      rw [(handleEntrySignal_spec scan sig s).1]

/-- A tick only ever appends to the cancelled-timer log. -/
theorem checkForEntrySignals_cancelled_mono (env : Env) (j : String)
    (s : MonitorState) (a : Nat) (h : a ∈ s.cancelledTimers) :
    a ∈ (checkForEntrySignals env j s).cancelledTimers := by
  unfold checkForEntrySignals
  rcases hfs : findScan s.dbScans j with _ | scan <;> simp only [hfs]
  · exact stopMonitoring_cancelled_mono j s a h
  · rcases hq : findQualifying env scan s.config.minConfidence s.config.timeframes
      with _ | sig <;> simp only [hq]
    · exact h
    · refine stopMonitoring_cancelled_mono j _ a ?_
      rw [(handleEntrySignal_spec scan sig s).2.1]
      exact h

/-- On the eligible path `startMonitoring` resolves to: cancel any previous
timer, register a fresh one, run one immediate check. -/
theorem startMonitoring_eligible_eq (env : Env) (s : MonitorState)
    (id : String) (scan : StockScan) (h1 : findScan s.dbScans id = some scan)
    (h2 : scan.hasVcpPattern = true) :
    startMonitoring env id s =
      ⟨checkForEntrySignals env id
        { stopMonitoring id s with
          intervals := mapSet (stopMonitoring id s).intervals id
            (stopMonitoring id s).nextHandle,
          nextHandle := (stopMonitoring id s).nextHandle + 1 },
        none, none⟩ := by
  unfold startMonitoring
  rw [h1]
  dsimp only
  rw [h2]
  rfl

end EntryMonitor

namespace EntryMonitor

/-- A tick that finds the row but no qualifying signal leaves the state
unchanged. -/
theorem checkForEntrySignals_no_signal_eq (env : Env) (id : String)
    (s : MonitorState) (scan : StockScan)
    (hfs : findScan s.dbScans id = some scan)
    (hq : findQualifying env scan s.config.minConfidence s.config.timeframes =
      none) : checkForEntrySignals env id s = s := by
  unfold checkForEntrySignals
  simp only [hfs, hq]

/-- C4 amended: for every eligible instrument, after `startMonitoring`
returns, AT MOST one WatchEntry exists for it — exactly one whenever the
immediate synchronous check finds no qualifying signal (if that check does
qualify, the monitor legitimately stops again and the registry is empty) —
and calling `startMonitoring` again replaces rather than duplicates: any
previously registered timer is cancelled. -/
theorem c4_start_replaces_never_duplicates (env : Env) (s : MonitorState)
    (id : String) (scan : StockScan) (h1 : findScan s.dbScans id = some scan)
    (h2 : scan.hasVcpPattern = true) :
    countFor id (startMonitoring env id s).state.intervals ≤ 1 ∧
    (∀ hdl, mapGet s.intervals id = some hdl →
      hdl ∈ (startMonitoring env id s).state.cancelledTimers) ∧
    (findQualifying env scan s.config.minConfidence s.config.timeframes =
        none →
      countFor id (startMonitoring env id s).state.intervals = 1) := by
  rw [startMonitoring_eligible_eq env s id scan h1 h2]
  have hs1get : mapGet (stopMonitoring id s).intervals id = none :=
    (stopMonitoring_spec id s).2.2.2.2
  have hset := mapSet_of_mapGet_none (stopMonitoring id s).intervals id
    (stopMonitoring id s).nextHandle hs1get
  have hcnt1 : countFor id (mapSet (stopMonitoring id s).intervals id
      (stopMonitoring id s).nextHandle) = 1 := by
    rw [hset, countFor_append, countFor_eq_zero_of_mapGet_none _ _ hs1get,
      countFor_cons_eq (id, (stopMonitoring id s).nextHandle) [] id rfl]
    rfl
  refine ⟨?_, ?_, ?_⟩
  · exact le_trans (checkForEntrySignals_countFor_le env id id _)
      (le_of_eq hcnt1)
  · intro hdl hmg
    refine checkForEntrySignals_cancelled_mono env id _ hdl ?_
    show hdl ∈ (stopMonitoring id s).cancelledTimers
    unfold stopMonitoring
    rw [hmg]
    exact List.mem_append_right _ (List.mem_singleton.mpr rfl)
  · intro hq
    rw [checkForEntrySignals_no_signal_eq env id _ scan
      (by
        show findScan (stopMonitoring id s).dbScans id = some scan
        rw [(stopMonitoring_spec id s).2.1]
        exact h1)
      (by
        show findQualifying env scan (stopMonitoring id s).config.minConfidence
          (stopMonitoring id s).config.timeframes = none
        rw [(stopMonitoring_spec id s).2.2.1]
        exact hq)]
    exact hcnt1

/-- Witness for C4: starting to monitor `"X"` (already watched with timer
handle 5) against a market-data source that yields no signal cancels
timer 5 and leaves exactly one registry entry for `"X"`. -/
theorem c4_start_replaces_never_duplicates_witness :
    countFor "X" (startMonitoring envEmpty "X" sWatchX).state.intervals ≤ 1 ∧
    (5 ∈ (startMonitoring envEmpty "X" sWatchX).state.cancelledTimers) ∧
    countFor "X" (startMonitoring envEmpty "X" sWatchX).state.intervals = 1 := by
  have h1 : findScan sWatchX.dbScans "X" = some scanX := by
    simp [findScan, sWatchX, scanX]
  have h := c4_start_replaces_never_duplicates envEmpty sWatchX "X" scanX h1 rfl
  refine ⟨h.1, h.2.1 5 (by simp [sWatchX, mapGet]), h.2.2 ?_⟩
  simp [findQualifying, analyzeTimeframe, envEmpty, sWatchX, defaultConfig]

end EntryMonitor

namespace EntryMonitor

/-- Stopping an id always leaves it with zero registry entries. -/
theorem stopMonitoring_countFor_self (id : String) (s : MonitorState) :
    countFor id (stopMonitoring id s).intervals = 0 := by
  unfold stopMonitoring
  rcases h : mapGet s.intervals id with _ | hdl
  · exact countFor_eq_zero_of_mapGet_none _ _ h
  · exact countFor_mapDelete_self _ _

/-- A tick that finds the row and a qualifying signal handles it and stops
monitoring. -/
theorem checkForEntrySignals_signal_eq (env : Env) (id : String)
    (s : MonitorState) (scan : StockScan) (sig : EntrySignal)
    (hfs : findScan s.dbScans id = some scan)
    (hq : findQualifying env scan s.config.minConfidence s.config.timeframes =
      some sig) :
    checkForEntrySignals env id s =
      stopMonitoring id (handleEntrySignal scan sig s) := by
  unfold checkForEntrySignals
  simp only [hfs, hq]

/-- `(3).toFixed(1)` is `"3.0"`. -/
theorem toFixedStr_one_three : toFixedStr 1 3 = "3.0" := by
  have h : round ((3 : ℚ) * 10 ^ (1 : ℕ)) = 30 := by norm_num [round_eq]
  unfold toFixedStr
  rw [h]
  decide

/-- On the ten-bar spike window the volume-spike strategy fires with
confidence 80 (ratio 3, price up 2%). -/
theorem checkVolumeSignal_spike (tf : String) :
    checkVolumeSignal scanX dataSpike tf 0 =
      some ⟨"ACME", "Acme Corp", SignalKind.volumeSpike, 80, 102, 1071/10,
        4947/50, 5/3, tf,
        "Volume spike of 3.0x average with bullish price movement", 0⟩ := by
  unfold checkVolumeSignal
  simp [dataSpike, barFlat, barSpike, jsSlice1, jsSlice, jsIdx, lastD, getD,
    sumBy, List.replicate, scanX]
  norm_num [min_def, toFixedStr_one_three]
  constructor
  · rw [abs_of_pos] <;> norm_num
  · rfl

end EntryMonitor

namespace EntryMonitor

/-- On the ten-bar spike window only the volume-spike strategy can run (all
other strategies are below their minimum window), so the per-timeframe
analysis returns exactly its result. -/
theorem analyzeTimeframe_spike (tf : String) :
    analyzeTimeframe scanX tf dataSpike 0 =
      checkVolumeSignal scanX dataSpike tf 0 := by
  have hlen : dataSpike.length = 10 := by simp [dataSpike]
  have hslice : jsSlice1 dataSpike (-50) = dataSpike := by
    simp [dataSpike, jsSlice1, jsSlice, jsIdx, List.replicate]
  have hb : checkBreakoutSignal scanX dataSpike tf 0 = none := by
    unfold checkBreakoutSignal; exact if_pos (by omega)
  have hp : checkPivotSignal scanX dataSpike tf 0 = none := by
    unfold checkPivotSignal; exact if_pos (by omega)
  have hs : checkSupportSignal scanX dataSpike tf 0 = none := by
    unfold checkSupportSignal; exact if_pos (by omega)
  have hm : checkMovingAverageSignal scanX dataSpike tf 0 = none := by
    unfold checkMovingAverageSignal; exact if_pos (by omega)
  unfold analyzeTimeframe
  rw [if_neg (by omega), hslice]
  dsimp only
  rw [hb, hp, hs, hm]
  rcases hv : checkVolumeSignal scanX dataSpike tf 0 with _ | sig
  · rfl
  · rfl

/-- The first configured timeframe already yields the qualifying
volume-spike signal (confidence 80 ≥ 70). -/
theorem findQualifying_spike_eq :
    findQualifying envSpike scanX 70 ["1h", "4h"] =
      some ⟨"ACME", "Acme Corp", SignalKind.volumeSpike, 80, 102, 1071/10,
        4947/50, 5/3, "1h",
        "Volume spike of 3.0x average with bullish price movement", 0⟩ := by
  unfold findQualifying
  have henv : envSpike.fetch scanX.symbol = dataSpike := rfl
  have hnow : envSpike.now = 0 := rfl
  rw [henv, hnow, analyzeTimeframe_spike, checkVolumeSignal_spike]
  norm_num

/-- C4 counterexample: starting to monitor the eligible instrument `"X"`
from the idle state, against market data on which the immediate synchronous
check already finds a qualifying signal, leaves ZERO WatchEntry values for
`"X"` when `startMonitoring` returns — not exactly one as the claim
states. -/
theorem c4_counterexample_immediate_signal_empties_registry :
    countFor "X" (startMonitoring envSpike "X" sIdleX).state.intervals = 0 := by
  rw [startMonitoring_eligible_eq envSpike sIdleX "X" scanX
    (by simp [findScan, sIdleX, scanX]) rfl]
  rw [checkForEntrySignals_signal_eq envSpike "X" _ scanX
    ⟨"ACME", "Acme Corp", SignalKind.volumeSpike, 80, 102, 1071/10,
      4947/50, 5/3, "1h",
      "Volume spike of 3.0x average with bullish price movement", 0⟩
    (by simp [findScan, stopMonitoring, sIdleX, mapGet, scanX])
    (by exact findQualifying_spike_eq)]
  exact stopMonitoring_countFor_self _ _

end EntryMonitor

namespace EntryMonitor

/-- Stopping never touches the notification log. -/
theorem notifsFor_stopMonitoring (j id : String) (s : MonitorState) :
    notifsFor id (stopMonitoring j s) = notifsFor id s := by
  unfold notifsFor
  rw [(stopMonitoring_spec j s).1]

/-- Handling a signal adds one notification for the handled row exactly
when alerts are enabled, and none for any other id. -/
theorem notifsFor_handleEntrySignal (scan : StockScan) (sig : EntrySignal)
    (s : MonitorState) (id : String) :
    notifsFor id (handleEntrySignal scan sig s) =
      notifsFor id s +
        (if scan.id = id ∧ s.config.enableEmailAlerts then 1 else 0) := by
  unfold notifsFor
  rw [(handleEntrySignal_spec scan sig s).2.2.2, List.filter_append,
    List.length_append]
  by_cases halert : s.config.enableEmailAlerts
  · by_cases hid : scan.id = id
    · rw [if_pos halert, if_pos ⟨hid, halert⟩]
      simp [hid]
    · rw [if_pos halert, if_neg (by rintro ⟨he, _⟩; exact hid he)]
      simp [hid]
  · rw [if_neg halert, if_neg (by rintro ⟨_, ha⟩; exact halert ha)]
    simp

/-- A tick for another instrument neither registers the id nor notifies
for it. -/
theorem tick_preserves (env : Env) (j id : String) (s : MonitorState)
    (hj : j ≠ id) (h : mapGet s.intervals id = none) :
    mapGet (checkForEntrySignals env j s).intervals id = none ∧
      notifsFor id (checkForEntrySignals env j s) = notifsFor id s := by
  unfold checkForEntrySignals
  rcases hfs : findScan s.dbScans j with _ | scan <;> simp only [hfs]
  · exact ⟨stopMonitoring_mapGet_none j id s h, notifsFor_stopMonitoring j id s⟩
  · rcases hq : findQualifying env scan s.config.minConfidence
      s.config.timeframes with _ | sig <;> simp only [hq]
    · exact ⟨h, trivial⟩
    · have hscanid : scan.id = j := findScan_id _ _ _ hfs
      constructor
      · refine stopMonitoring_mapGet_none j id _ ?_
        rw [(handleEntrySignal_spec scan sig s).1]
        exact h
      · rw [notifsFor_stopMonitoring, notifsFor_handleEntrySignal,
          if_neg (by rintro ⟨he, _⟩; exact hj (hscanid ▸ he)), Nat.add_zero]

/-- Starting another instrument neither registers the id nor notifies for
it. -/
theorem start_preserves (env : Env) (j id : String) (s : MonitorState)
    (hj : j ≠ id) (h : mapGet s.intervals id = none) :
    mapGet (startMonitoring env j s).state.intervals id = none ∧
      notifsFor id (startMonitoring env j s).state = notifsFor id s := by
  rcases hfs : findScan s.dbScans j with _ | scan
  · unfold startMonitoring
    simp only [hfs]
    exact ⟨h, rfl⟩
  · rcases hvcp : scan.hasVcpPattern with _ | _
    · unfold startMonitoring
      simp only [hfs, hvcp]
      exact ⟨h, rfl⟩
    · rw [startMonitoring_eligible_eq env s j scan hfs hvcp]
      have hget : mapGet ({ stopMonitoring j s with
          intervals := mapSet (stopMonitoring j s).intervals j
            (stopMonitoring j s).nextHandle,
          nextHandle := (stopMonitoring j s).nextHandle + 1 } :
            MonitorState).intervals id = none := by
        show mapGet (mapSet (stopMonitoring j s).intervals j
          (stopMonitoring j s).nextHandle) id = none
        rw [mapGet_mapSet_ne _ _ _ _ (fun he => hj he.symm)]
        exact stopMonitoring_mapGet_none j id s h
      have ht := tick_preserves env j id _ hj hget
      refine ⟨ht.1, ?_⟩
      rw [ht.2]
      exact notifsFor_stopMonitoring j id s

/-- Any single event other than `startMonitoring id` or a tick of `id`
itself keeps the id unregistered and its notification count unchanged. -/
theorem step_preserves (env : Env) (s : MonitorState) (st : Step)
    (id : String) (h1 : st ≠ Step.start id) (h2 : st ≠ Step.tick id)
    (h : mapGet s.intervals id = none) :
    mapGet (stepRun env s st).intervals id = none ∧
      notifsFor id (stepRun env s st) = notifsFor id s := by
  cases st with
  | start j =>
    exact start_preserves env j id s (fun he => h1 (by rw [he])) h
  | stop j =>
    exact ⟨stopMonitoring_mapGet_none j id s h, notifsFor_stopMonitoring j id s⟩
  | tick j =>
    exact tick_preserves env j id s (fun he => h2 (by rw [he])) h

/-- Along any schedulable run that never calls `startMonitoring id`, an
unregistered id can never tick again and collects no further
notifications. -/
theorem runPreserves (env : Env) (id : String) :
    ∀ (s : MonitorState) (steps : List Step) (s2 : MonitorState),
      validRun env s steps s2 → mapGet s.intervals id = none →
      Step.start id ∉ steps →
      Step.tick id ∉ steps ∧ notifsFor id s2 = notifsFor id s ∧
        mapGet s2.intervals id = none := by
  intro s steps s2 hrun
  induction hrun with
  | nil s =>
    intro h _
    exact ⟨by simp, rfl, h⟩
  | cons s st steps s2 henabled hrest ih =>
    intro h hstart
    have hst_start : st ≠ Step.start id := fun he =>
      hstart (he ▸ List.mem_cons_self _ _)
    have hnotin : Step.start id ∉ steps := fun hm =>
      hstart (List.mem_cons_of_mem _ hm)
    have hst_tick : st ≠ Step.tick id := by
      intro he
      subst he
      simp only [enabled] at henabled
      rw [h] at henabled
      cases henabled
    have hpres := step_preserves env s st id hst_start hst_tick h
    have hrec := ih hpres.1 hnotin
    refine ⟨?_, by rw [hrec.2.1, hpres.2], hrec.2.2⟩
    intro hmem
    rcases List.mem_cons.mp hmem with he | hm
    · exact hst_tick he.symm
    · exact hrec.1 hm

/-- C3 amended: once a check (tick) for a watched instrument produces a
signal whose confidence reaches `minConfidence`, the instrument's
WatchEntry is removed (Watching→Idle), no further tick for it can occur in
any schedulable run until `startMonitoring` is called for it again, and the
notifications dispatched for that watch lifecycle number exactly one WHEN
`enableEmailAlerts` is set and zero when it is not (at most one either
way). -/
theorem c3_qualifying_tick_stops_and_notifies_once (env : Env)
    (s : MonitorState) (id : String) (scan : StockScan)
    (h1 : findScan s.dbScans id = some scan)
    (h2 : (findQualifying env scan s.config.minConfidence
      s.config.timeframes).isSome = true) :
    mapGet (checkForEntrySignals env id s).intervals id = none ∧
    notifsFor id (checkForEntrySignals env id s) =
      notifsFor id s + (if s.config.enableEmailAlerts then 1 else 0) ∧
    ∀ (steps : List Step) (s2 : MonitorState),
      validRun env (checkForEntrySignals env id s) steps s2 →
      Step.start id ∉ steps →
      Step.tick id ∉ steps ∧
        notifsFor id s2 = notifsFor id (checkForEntrySignals env id s) := by
  obtain ⟨sig, hq⟩ := Option.isSome_iff_exists.mp h2
  rw [checkForEntrySignals_signal_eq env id s scan sig h1 hq]
  have hscanid : scan.id = id := findScan_id _ _ _ h1
  have hget : mapGet (stopMonitoring id
      (handleEntrySignal scan sig s)).intervals id = none :=
    (stopMonitoring_spec _ _).2.2.2.2
  refine ⟨hget, ?_, ?_⟩
  · rw [notifsFor_stopMonitoring, notifsFor_handleEntrySignal]
    by_cases halert : s.config.enableEmailAlerts
    · rw [if_pos ⟨hscanid, halert⟩, if_pos halert]
    · rw [if_neg (by rintro ⟨_, ha⟩; exact halert ha), if_neg halert]
  · intro steps s2 hrun hstart
    have hrec := runPreserves env id _ _ _ hrun hget hstart
    exact ⟨hrec.1, hrec.2.1⟩

/-- Witness for C3 at the concrete watching state: the qualifying
volume-spike tick removes the watch entry, dispatches exactly one alert
(alerts are enabled in the default configuration), and no run without a
restart ever ticks `"X"` again. -/
theorem c3_qualifying_tick_stops_and_notifies_once_witness :
    mapGet (checkForEntrySignals envSpike "X" sWatchX).intervals "X" = none ∧
    notifsFor "X" (checkForEntrySignals envSpike "X" sWatchX) =
      notifsFor "X" sWatchX +
        (if sWatchX.config.enableEmailAlerts then 1 else 0) ∧
    ∀ (steps : List Step) (s2 : MonitorState),
      validRun envSpike (checkForEntrySignals envSpike "X" sWatchX) steps s2 →
      Step.start "X" ∉ steps →
      Step.tick "X" ∉ steps ∧
        notifsFor "X" s2 =
          notifsFor "X" (checkForEntrySignals envSpike "X" sWatchX) :=
  c3_qualifying_tick_stops_and_notifies_once envSpike sWatchX "X" scanX
    (by simp [findScan, sWatchX, scanX])
    (by
      show (findQualifying envSpike scanX 70 ["1h", "4h"]).isSome = true
      rw [findQualifying_spike_eq]
      rfl)

/-- C3 counterexample: with e-mail alerts disabled in the configuration, a
tick that finds a qualifying signal (the volume spike, confidence 80 ≥ 70)
still stops monitoring, but dispatches ZERO notifications for the
lifecycle — not exactly one as the claim states. -/
theorem c3_counterexample_no_notification_when_alerts_disabled :
    (findQualifying envSpike scanX sWatchXNoAlerts.config.minConfidence
      sWatchXNoAlerts.config.timeframes).isSome = true ∧
    mapGet (checkForEntrySignals envSpike "X" sWatchXNoAlerts).intervals "X" =
      none ∧
    (checkForEntrySignals envSpike "X" sWatchXNoAlerts).notificationsSent =
      [] := by
  obtain ⟨sig, hq0⟩ : ∃ sig,
      findQualifying envSpike scanX 70 ["1h", "4h"] = some sig :=
    ⟨_, findQualifying_spike_eq⟩
  have hq : findQualifying envSpike scanX
      sWatchXNoAlerts.config.minConfidence
      sWatchXNoAlerts.config.timeframes = some sig := hq0
  have heq := checkForEntrySignals_signal_eq envSpike "X" sWatchXNoAlerts
    scanX sig (by simp [findScan, sWatchXNoAlerts, scanX]) hq
  refine ⟨by rw [hq]; rfl, ?_, ?_⟩
  · rw [heq]
    exact (stopMonitoring_spec _ _).2.2.2.2
  · rw [heq, (stopMonitoring_spec _ _).1,
      (handleEntrySignal_spec _ _ _).2.2.2]
    simp [sWatchXNoAlerts, configNoAlerts]

end EntryMonitor
